import Mathlib

/-!
Verification development for the mov2seqimg repository
(`src/mov2seqimg/mov2seqimg.py`).

The numeric code of the repository is embedded shallowly over the exact
rationals `ℚ`.  Python's `int(x)` conversion (truncation toward zero) is
modelled by `truncQ`.  Each definition mirrors one function or code block of
the source file; the doc comment of every definition names the source
location it embeds.
-/

namespace Mov2SeqImg

/-- Python's `int(x)` applied to a real value: truncation toward zero. -/
def truncQ (q : ℚ) : ℤ := if 0 ≤ q then ⌊q⌋ else ⌈q⌉

/-- Source `latlon_to_rational` (mov2seqimg.py lines 11-16):
`latlon = abs(latlon); deg = int(latlon); min = int((latlon-deg)*60);
sec = int(((latlon-deg)*60 - min)*60*100000);
return [(deg,1),(min,1),(sec,100000)]`. -/
def latlon_to_rational (latlon : ℚ) : List (ℤ × ℤ) :=
  let m := |latlon|
  let deg := truncQ m
  let mn := truncQ ((m - deg) * 60)
  let sec := truncQ (((m - deg) * 60 - mn) * 60 * 100000)
  [(deg, 1), (mn, 1), (sec, 100000)]

/-- Source `ele_to_rational` (mov2seqimg.py lines 18-20):
`ele = int(ele * 1000); return (ele, 1000)`. -/
def ele_to_rational (ele : ℚ) : ℤ × ℤ :=
  (truncQ (ele * 1000), 1000)

/-- Video metadata loaded by `_load_mov` (mov2seqimg.py lines 53-68):
`total_frames`, `total_duration`, `fps`. -/
structure VideoMeta where
  total_frames : ℤ
  total_duration : ℚ
  fps : ℚ
deriving DecidableEq, Repr

/-- The resolved sampling parameters stored on the instance by
`_set_params` (mov2seqimg.py lines 119-149). -/
structure Params where
  start_time : ℚ
  end_time : ℚ
  time_interval : ℚ
  clip_fps : ℚ
deriving DecidableEq, Repr

/-- Source `_set_params` (mov2seqimg.py lines 119-149).  `none` models a
Python `None` argument.  Raised `ValueError`s become `Except.error` with the
source's message. -/
def set_params (video : VideoMeta)
    (start_time? end_time? time_interval? clip_fps? : Option ℚ) :
    Except String Params :=
  let st := start_time?.getD 0
  let et := end_time?.getD video.total_duration
  if et ≤ st then
    .error "end_time must be greater than start_time."
  else
    match time_interval? with
    | none =>
      match clip_fps? with
      | some cf =>
        if video.fps < cf then .ok ⟨st, et, 1 / video.fps, video.fps⟩
        else .ok ⟨st, et, 1 / cf, cf⟩
      | none => .error "Either time_interval or fps must be set."
    | some ti =>
      if video.fps < 1 / ti then .ok ⟨st, et, 1 / video.fps, video.fps⟩
      else .ok ⟨st, et, ti, 1 / ti⟩

/-- `np.arange(start, stop, step)` over exact rationals: the arithmetic
progression `start, start+step, ...` of length `⌈(stop-start)/step⌉`
(clamped at 0).  A zero step is an error in numpy; it is modelled as the
empty list and never reached by the claims. -/
def arange (start stop step : ℚ) : List ℚ :=
  if step = 0 then []
  else (List.range (⌈(stop - start) / step⌉.toNat)).map
    (fun i : ℕ => start + (i : ℚ) * step)

/-- Source `_get_frame_list` (mov2seqimg.py lines 158-169):
positions `np.arange(start_time*fps, end_time*fps, fps/clip_fps)` are
clamped by `np.clip(·, 0, total_frames-1)`, truncated by `np.int64`, and
each record carries the timestamp `frame_num / fps` recomputed from the
integer index. -/
def get_frame_list (video : VideoMeta) (p : Params) : List (ℤ × ℚ) :=
  (arange (p.start_time * video.fps) (p.end_time * video.fps)
      (video.fps / p.clip_fps)).map
    (fun x =>
      (truncQ (min (max x 0) ((video.total_frames : ℚ) - 1)),
       (truncQ (min (max x 0) ((video.total_frames : ℚ) - 1)) : ℚ) / video.fps))

/-- One row of `merged_frame_list` (mov2seqimg.py lines 197-204). -/
structure MergedRecord where
  frame_num : ℤ
  time_stamp : ℚ
  lat : ℚ
  lon : ℚ
  ele : ℚ
deriving DecidableEq, Repr

/-- The per-record effect of `_extract_images` (mov2seqimg.py lines
230-253): the ffmpeg seek position `ss = frame_num / fps` and the GPS exif
fields written into the image. -/
structure ExtractAction where
  seek_ss : ℚ
  gpsLatitude : List (ℤ × ℤ)
  gpsLatitudeRef : String
  gpsLongitude : List (ℤ × ℤ)
  gpsLongitudeRef : String
  gpsAltitude : ℤ × ℤ
deriving DecidableEq, Repr

/-- Source `_extract_images` body for one row (mov2seqimg.py lines
232-251). -/
def extract_record (video : VideoMeta) (r : MergedRecord) : ExtractAction :=
  { seek_ss := (r.frame_num : ℚ) / video.fps
    gpsLatitude := latlon_to_rational r.lat
    gpsLatitudeRef := if 0 ≤ r.lat then "N" else "S"
    gpsLongitude := latlon_to_rational r.lon
    gpsLongitudeRef := if 0 ≤ r.lon then "E" else "W"
    gpsAltitude := ele_to_rational r.ele }

/-! ### Basic facts about `truncQ` -/

theorem truncQ_intCast (n : ℤ) : truncQ (n : ℚ) = n := by
  unfold truncQ
  split <;> simp

theorem truncQ_mono {q r : ℚ} (h : q ≤ r) : truncQ q ≤ truncQ r := by
  unfold truncQ
  rcases le_or_lt 0 q with hq | hq
  · rw [if_pos hq, if_pos (hq.trans h)]
    exact Int.floor_le_floor h
  · rcases le_or_lt 0 r with hr | hr
    · rw [if_neg (not_le.mpr hq), if_pos hr]
      exact le_trans (Int.ceil_le.mpr (by exact_mod_cast hq.le)) (Int.le_floor.mpr (by exact_mod_cast hr))
    · rw [if_neg (not_le.mpr hq), if_neg (not_le.mpr hr)]
      exact Int.ceil_le_ceil h

theorem truncQ_nonneg {q : ℚ} (h : 0 ≤ q) : 0 ≤ truncQ q := by
  rw [show truncQ q = ⌊q⌋ by simp [truncQ, h]]
  exact Int.le_floor.mpr (by exact_mod_cast h)

theorem truncQ_eq_floor_of_nonneg {q : ℚ} (h : 0 ≤ q) : truncQ q = ⌊q⌋ := by
  simp [truncQ, h]

theorem truncQ_eq_ceil_of_neg {q : ℚ} (h : q < 0) : truncQ q = ⌈q⌉ := by
  simp [truncQ, not_le.mpr h]

/-! ### Claims C8, C9, C10 : the geotag encoder -/

/-- C8.  For every coordinate value `v` with magnitude `m = |v|`, the encoder
produces `degrees = trunc m`, `minutes = trunc ((m-deg)*60)`,
`seconds = (trunc ((((m-deg)*60)-min)*60*100000), 100000)` with all
truncations toward zero; the hemisphere reference is `N` iff `lat ≥ 0`
(else `S`) and `E` iff `lon ≥ 0` (else `W`); and
`encode 35.6895` yields degrees 35, minutes 41, seconds (2220000, 100000)
with hemisphere `N`. -/
theorem latlon_encoding_spec :
    (∀ v : ℚ,
      latlon_to_rational v =
        [(truncQ |v|, 1),
         (truncQ ((|v| - truncQ |v|) * 60), 1),
         (truncQ (((|v| - truncQ |v|) * 60 - truncQ ((|v| - truncQ |v|) * 60))
            * 60 * 100000), 100000)]) ∧
    (∀ video : VideoMeta, ∀ r : MergedRecord,
      (extract_record video r).gpsLatitudeRef = (if 0 ≤ r.lat then "N" else "S") ∧
      (extract_record video r).gpsLongitudeRef = (if 0 ≤ r.lon then "E" else "W")) ∧
    latlon_to_rational (356895 / 10000) = [(35, 1), (41, 1), (2220000, 100000)] ∧
    (0 : ℚ) ≤ 356895 / 10000 := by
  refine ⟨fun v => rfl, fun video r => ⟨rfl, rfl⟩, ?_, by norm_num⟩
  have habs : |(356895 / 10000 : ℚ)| = 356895 / 10000 := by
    rw [abs_of_nonneg]; norm_num
  have h1 : truncQ (356895 / 10000 : ℚ) = 35 := by
    rw [truncQ_eq_floor_of_nonneg (by norm_num), Int.floor_eq_iff]
    constructor <;> norm_num
  simp only [latlon_to_rational, habs, h1]
  have h2 : truncQ (((356895 / 10000 : ℚ) - ((35 : ℤ) : ℚ)) * 60) = 41 := by
    rw [truncQ_eq_floor_of_nonneg (by norm_num), Int.floor_eq_iff]
    constructor <;> norm_num
  rw [h2]
  have h3 : (((356895 / 10000 : ℚ) - ((35 : ℤ) : ℚ)) * 60 - ((41 : ℤ) : ℚ)) * 60 * 100000
      = ((2220000 : ℤ) : ℚ) := by norm_num
  rw [h3, truncQ_intCast]

/-- C9.  For every elevation value `ele`, the encoder produces
`altitude_rational = (trunc (ele * 1000), 1000)` with truncation toward
zero; in particular `encode 123.456` yields `(123456, 1000)`. -/
theorem ele_encoding_spec :
    (∀ ele : ℚ, ele_to_rational ele = (truncQ (ele * 1000), 1000)) ∧
    ele_to_rational (123456 / 1000) = (123456, 1000) := by
  refine ⟨fun ele => rfl, ?_⟩
  have h : ((123456 / 1000 : ℚ) * 1000) = ((123456 : ℤ) : ℚ) := by norm_num
  show (truncQ ((123456 / 1000 : ℚ) * 1000), (1000 : ℤ)) = (123456, 1000)
  rw [h, truncQ_intCast]

/-- C10 counterexample.  `ele = -1/2000` is negative, but the encoded
altitude numerator `trunc (ele * 1000) = trunc (-1/2)` equals 0, which is
not negative: the claim that every negative elevation yields a negative
numerator fails. -/
theorem negative_elevation_counterexample :
    (-1 / 2000 : ℚ) < 0 ∧
    ele_to_rational (-1 / 2000) = (0, 1000) ∧
    ¬ (ele_to_rational (-1 / 2000)).1 < 0 := by
  have h : ((-1 / 2000 : ℚ) * 1000) = -1 / 2 := by norm_num
  have hc : truncQ (-1 / 2 : ℚ) = 0 := by
    rw [truncQ_eq_ceil_of_neg (by norm_num), Int.ceil_eq_iff]
    constructor <;> norm_num
  have hval : ele_to_rational (-1 / 2000) = (0, 1000) := by
    show (truncQ ((-1 / 2000 : ℚ) * 1000), (1000 : ℤ)) = (0, 1000)
    rw [h, hc]
  exact ⟨by norm_num, hval, by rw [hval]; norm_num⟩

/-- C10 (amended).  For every negative elevation `ele < 0`, the encoder is
total (no exception) and returns `(trunc (ele*1000), 1000)`; the numerator
is nonpositive, and it is strictly negative whenever `ele ≤ -1/1000`
(for `-1/1000 < ele < 0` truncation toward zero yields numerator 0); the
value is written unchanged into the image's GPS altitude field. -/
theorem negative_elevation_encoding (video : VideoMeta) (r : MergedRecord)
    (h : r.ele < 0) :
    (extract_record video r).gpsAltitude = (truncQ (r.ele * 1000), 1000) ∧
    (extract_record video r).gpsAltitude.1 ≤ 0 ∧
    (r.ele ≤ -1 / 1000 → (extract_record video r).gpsAltitude.1 < 0) ∧
    (extract_record video r).gpsAltitude = ele_to_rational r.ele := by
  have hneg : r.ele * 1000 < 0 := by
    have : r.ele * 1000 < 0 * 1000 := by
      exact mul_lt_mul_of_pos_right h (by norm_num)
    simpa using this
  refine ⟨rfl, ?_, ?_, rfl⟩
  · show truncQ (r.ele * 1000) ≤ 0
    rw [truncQ_eq_ceil_of_neg hneg]
    exact Int.ceil_le.mpr (by exact_mod_cast hneg.le)
  · intro hle
    show truncQ (r.ele * 1000) < 0
    rw [truncQ_eq_ceil_of_neg hneg]
    have h1 : r.ele * 1000 ≤ -1 := by
      have := mul_le_mul_of_nonneg_right hle (by norm_num : (0:ℚ) ≤ 1000)
      calc r.ele * 1000 ≤ -1 / 1000 * 1000 := this
        _ = -1 := by norm_num
    have : ⌈r.ele * 1000⌉ ≤ -1 :=
      Int.ceil_le.mpr (by exact_mod_cast h1)
    omega

/-- C10 witness: the amended theorem applied at `ele = -1.2345`
(which encodes to `(-1234, 1000)` as the claim's example states). -/
theorem negative_elevation_encoding_witness :
    ((-12345 / 10000 : ℚ) < 0 ∧
      ((extract_record ⟨300, 10, 30⟩ ⟨0, 0, 0, 0, -12345 / 10000⟩).gpsAltitude
          = (truncQ ((-12345 / 10000 : ℚ) * 1000), 1000) ∧
        (extract_record ⟨300, 10, 30⟩ ⟨0, 0, 0, 0, -12345 / 10000⟩).gpsAltitude.1 ≤ 0 ∧
        ((-12345 / 10000 : ℚ) ≤ -1 / 1000 →
          (extract_record ⟨300, 10, 30⟩ ⟨0, 0, 0, 0, -12345 / 10000⟩).gpsAltitude.1 < 0) ∧
        (extract_record ⟨300, 10, 30⟩ ⟨0, 0, 0, 0, -12345 / 10000⟩).gpsAltitude
          = ele_to_rational (-12345 / 10000))) ∧
    ele_to_rational (-12345 / 10000) = (-1234, 1000) := by
  refine ⟨⟨by norm_num,
    negative_elevation_encoding ⟨300, 10, 30⟩ ⟨0, 0, 0, 0, -12345 / 10000⟩ (by norm_num)⟩, ?_⟩
  have h : ((-12345 / 10000 : ℚ) * 1000) = -12345 / 10 := by norm_num
  have hc : truncQ (-12345 / 10 : ℚ) = -1234 := by
    rw [truncQ_eq_ceil_of_neg (by norm_num), Int.ceil_eq_iff]
    constructor <;> norm_num
  show (truncQ ((-12345 / 10000 : ℚ) * 1000), (1000 : ℤ)) = (-1234, 1000)
  rw [h, hc]

/-! ### Claim C1 : sample timestamps match the extraction seek position -/

/-- C1.  Every record emitted by `_get_frame_list` carries
`elapsed_time = frame_index / fps`, recomputed from the clamped-and-truncated
integer index, and `_extract_images` seeks the video at exactly the same
value `frame_index / fps`. -/
theorem sample_time_matches_extraction (video : VideoMeta) (p : Params)
    (e : ℤ × ℚ) (h : e ∈ get_frame_list video p) :
    e.2 = (e.1 : ℚ) / video.fps ∧
    (∀ lat lon ele : ℚ,
      (extract_record video ⟨e.1, e.2, lat, lon, ele⟩).seek_ss = e.2) := by
  rw [get_frame_list, List.mem_map] at h
  obtain ⟨x, _, rfl⟩ := h
  exact ⟨rfl, fun lat lon ele => rfl⟩

/-- C1 witness: the theorem applied to the single record produced for a
30 fps, 300-frame video sampled at 1 fps over `[0, 1)`. -/
theorem sample_time_matches_extraction_witness :
    (((0 : ℤ), (0 : ℚ)) ∈ get_frame_list ⟨300, 10, 30⟩ ⟨0, 1, 1, 1⟩) ∧
    ((0 : ℚ) = ((0 : ℤ) : ℚ) / (30 : ℚ) ∧
      ∀ lat lon ele : ℚ,
        (extract_record ⟨300, 10, 30⟩ ⟨0, 0, lat, lon, ele⟩).seek_ss = 0) := by
  have hfl : get_frame_list ⟨300, 10, 30⟩ ⟨0, 1, 1, 1⟩ = [((0 : ℤ), (0 : ℚ))] := by
    unfold get_frame_list arange
    norm_num [List.range_succ, truncQ]
  have hmem : ((0 : ℤ), (0 : ℚ)) ∈ get_frame_list ⟨300, 10, 30⟩ ⟨0, 1, 1, 1⟩ := by
    rw [hfl]; exact List.mem_singleton.mpr rfl
  exact ⟨hmem, sample_time_matches_extraction ⟨300, 10, 30⟩ ⟨0, 1, 1, 1⟩ (0, 0) hmem⟩

/-! ### Claims C2, C5 : configuration resolution -/

/-- The clip rate `_set_params` derives before any clamping: `1 / time_interval`
when `time_interval` is supplied (it takes precedence), else the supplied
`fps` argument. -/
def rawRate (time_interval? clip_fps? : Option ℚ) : ℚ :=
  match time_interval? with
  | some t => 1 / t
  | none => clip_fps?.getD 0

/-- Shape of `_set_params` when `time_interval` is supplied (definitional). -/
theorem set_params_some_ti (video : VideoMeta) (st? et? : Option ℚ) (t : ℚ)
    (cf? : Option ℚ) :
    set_params video st? et? (some t) cf? =
      (if et?.getD video.total_duration ≤ st?.getD 0 then
        .error "end_time must be greater than start_time."
      else if video.fps < 1 / t then
        .ok ⟨st?.getD 0, et?.getD video.total_duration, 1 / video.fps, video.fps⟩
      else
        .ok ⟨st?.getD 0, et?.getD video.total_duration, t, 1 / t⟩) := rfl

/-- Shape of `_set_params` when only `fps` is supplied (definitional). -/
theorem set_params_none_some (video : VideoMeta) (st? et? : Option ℚ) (c : ℚ) :
    set_params video st? et? none (some c) =
      (if et?.getD video.total_duration ≤ st?.getD 0 then
        .error "end_time must be greater than start_time."
      else if video.fps < c then
        .ok ⟨st?.getD 0, et?.getD video.total_duration, 1 / video.fps, video.fps⟩
      else
        .ok ⟨st?.getD 0, et?.getD video.total_duration, 1 / c, c⟩) := rfl

/-- Shape of `_set_params` when no rate parameter is supplied (definitional). -/
theorem set_params_none_none (video : VideoMeta) (st? et? : Option ℚ) :
    set_params video st? et? none none =
      (if et?.getD video.total_duration ≤ st?.getD 0 then
        .error "end_time must be greater than start_time."
      else .error "Either time_interval or fps must be set.") := rfl

/-- C2 counterexample.  With `time_interval = 1` and `target_fps = 2` both
supplied (video fps 30), the claim says the effective clip rate is
`target_fps = 2`; the code resolves `clip_fps = 1/time_interval = 1`
(time_interval takes precedence). -/
theorem clip_rate_precedence_counterexample :
    set_params ⟨300, 10, 30⟩ (some 0) (some 10) (some 1) (some 2) =
      .ok ⟨0, 10, 1, 1⟩ ∧ (1 : ℚ) ≠ 2 := by
  constructor
  · unfold set_params; norm_num
  · norm_num

/-- C2 (amended).  Whenever `_set_params` succeeds, the effective clip rate
is `min(rawRate, video.fps)` where `rawRate` is `1/time_interval` when
`time_interval` is supplied (taking precedence over `target_fps`), else
`target_fps`; when the raw rate exceeds `video.fps` it is clamped so that
the clip rate equals `video.fps` exactly and `time_interval` is recomputed
as `1/clip_fps`; when it does not exceed `video.fps` the clip rate equals
the raw rate. -/
theorem clip_rate_resolution (video : VideoMeta)
    (st? et? ti? cf? : Option ℚ) (p : Params)
    (h : set_params video st? et? ti? cf? = .ok p) :
    p.clip_fps = min (rawRate ti? cf?) video.fps ∧
    (video.fps < rawRate ti? cf? →
      p.clip_fps = video.fps ∧ p.time_interval = 1 / p.clip_fps) ∧
    (rawRate ti? cf? ≤ video.fps → p.clip_fps = rawRate ti? cf?) := by
  rcases ti? with _ | t
  · rcases cf? with _ | c
    · rw [set_params_none_none] at h
      split at h <;> simp at h
    · rw [set_params_none_some] at h
      simp only [rawRate, Option.getD_some]
      split at h
      · simp at h
      · split at h
        next hlt =>
          injection h with h2
          subst h2
          refine ⟨(min_eq_right hlt.le).symm, fun _ => ⟨rfl, rfl⟩,
            fun hle => absurd hlt (not_lt.mpr hle)⟩
        next hlt =>
          injection h with h2
          subst h2
          have hle : c ≤ video.fps := not_lt.mp hlt
          exact ⟨(min_eq_left hle).symm, fun hgt => absurd hgt hlt,
            fun _ => rfl⟩
  · rw [set_params_some_ti] at h
    simp only [rawRate]
    split at h
    · simp at h
    · split at h
      next hlt =>
        injection h with h2
        subst h2
        refine ⟨(min_eq_right hlt.le).symm, fun _ => ⟨rfl, rfl⟩,
          fun hle => absurd hlt (not_lt.mpr hle)⟩
      next hlt =>
        injection h with h2
        subst h2
        have hle : 1 / t ≤ video.fps := not_lt.mp hlt
        exact ⟨(min_eq_left hle).symm, fun hgt => absurd hgt hlt,
          fun _ => rfl⟩

/-- C2 witness: the amended theorem applied to a 30 fps video with
`time_interval = 1/60` (raw rate 60 > 30, so the rate is clamped to 30 and
`time_interval` becomes `1/30`). -/
theorem clip_rate_resolution_witness :
    (set_params ⟨300, 10, 30⟩ (some 0) (some 10) (some (1 / 60)) none =
      .ok ⟨0, 10, 1 / 30, 30⟩) ∧
    ((⟨0, 10, 1 / 30, 30⟩ : Params).clip_fps
        = min (rawRate (some (1 / 60)) none) (⟨300, 10, 30⟩ : VideoMeta).fps ∧
      ((⟨300, 10, 30⟩ : VideoMeta).fps < rawRate (some (1 / 60)) none →
        (⟨0, 10, 1 / 30, 30⟩ : Params).clip_fps = (⟨300, 10, 30⟩ : VideoMeta).fps ∧
        (⟨0, 10, 1 / 30, 30⟩ : Params).time_interval
          = 1 / (⟨0, 10, 1 / 30, 30⟩ : Params).clip_fps) ∧
      (rawRate (some (1 / 60)) none ≤ (⟨300, 10, 30⟩ : VideoMeta).fps →
        (⟨0, 10, 1 / 30, 30⟩ : Params).clip_fps = rawRate (some (1 / 60)) none)) :=
  ⟨by unfold set_params; norm_num,
    clip_rate_resolution ⟨300, 10, 30⟩ (some 0) (some 10) (some (1 / 60)) none
      ⟨0, 10, 1 / 30, 30⟩ (by unfold set_params; norm_num)⟩

/-- The failure condition C5 claims (formalised from the spec's words):
`end_time ≤ start_time`, or the rate parameters do not resolve to a positive
clip rate from exactly one supplied parameter. -/
def exactlyOnePositiveRate (time_interval? clip_fps? : Option ℚ) : Bool :=
  match time_interval?, clip_fps? with
  | some t, none => decide (0 < 1 / t)
  | none, some c => decide (0 < c)
  | _, _ => false

/-- The claimed error condition of C5, spec side. -/
def claimedConfigError (video : VideoMeta)
    (st? et? ti? cf? : Option ℚ) : Bool :=
  decide (et?.getD video.total_duration ≤ st?.getD 0) ||
    !(exactlyOnePositiveRate ti? cf?)

/-- C5 counterexample.  With both `time_interval = 1` and `target_fps = 2`
supplied and a valid time range, the claimed condition says resolution must
fail (not exactly one rate parameter), but `_set_params` succeeds. -/
theorem config_error_counterexample :
    claimedConfigError ⟨300, 10, 30⟩ (some 0) (some 10) (some 1) (some 2) = true ∧
    set_params ⟨300, 10, 30⟩ (some 0) (some 10) (some 1) (some 2) =
      .ok ⟨0, 10, 1, 1⟩ := by
  constructor
  · rfl
  · unfold set_params; norm_num

/-- C5 (amended).  `_set_params` fails (with a `ValueError`) exactly when
`end_time ≤ start_time` or when neither `time_interval` nor `target_fps`
is supplied; supplying both is accepted without error (`time_interval`
takes precedence), and the positivity of the resolved rate is not
checked.  The hypotheses exclude a zero fps and zero rate arguments, where
the Python source would instead raise a `ZeroDivisionError` that the ℚ
embedding (`1/0 = 0`) cannot see. -/
theorem set_params_failure_iff (video : VideoMeta)
    (st? et? ti? cf? : Option ℚ) (hfps : 0 < video.fps)
    (hti : ti? ≠ some 0) (hcf : cf? ≠ some 0) :
    (∃ msg, set_params video st? et? ti? cf? = .error msg) ↔
    (et?.getD video.total_duration ≤ st?.getD 0 ∨
      (ti? = none ∧ cf? = none)) := by
  rcases ti? with _ | t
  · rcases cf? with _ | c
    · rw [set_params_none_none]
      split
      next hse => simp [hse]
      next hse => simp [hse]
    · rw [set_params_none_some]
      split
      next hse => simp [hse]
      next hse =>
        split <;> simp [hse]
  · rw [set_params_some_ti]
    split
    next hse => simp [hse]
    next hse =>
      split <;> simp [hse]

/-- C5 witness: the amended theorem applied with no rate parameter supplied
(resolution fails) on a 30 fps video with a valid time range. -/
theorem set_params_failure_iff_witness :
    ((0 : ℚ) < 30 ∧ (none : Option ℚ) ≠ some 0 ∧ (none : Option ℚ) ≠ some 0) ∧
    ((∃ msg, set_params ⟨300, 10, 30⟩ (some 0) (some 10) none none = .error msg) ↔
      ((some (10 : ℚ)).getD (⟨300, 10, 30⟩ : VideoMeta).total_duration
          ≤ (some (0 : ℚ)).getD 0 ∨
        ((none : Option ℚ) = none ∧ (none : Option ℚ) = none))) :=
  ⟨⟨by norm_num, by simp, by simp⟩,
    set_params_failure_iff ⟨300, 10, 30⟩ (some 0) (some 10) none none
      (by norm_num) (by simp) (by simp)⟩

/-! ### Claims C3, C4 : frame-list invariants and sample count -/

/-- C3.  For every valid sampling configuration (`end_time > start_time`,
positive effective clip rate, positive fps, at least one frame), every frame
index emitted by `_get_frame_list` lies in `[0, total_frames-1]`, and the
emitted sequence of frame indices is non-decreasing. -/
theorem frame_list_bounds_and_monotone (video : VideoMeta) (p : Params)
    (hfps : 0 < video.fps) (hclip : 0 < p.clip_fps)
    (hrange : p.start_time < p.end_time) (htf : 1 ≤ video.total_frames) :
    (∀ e ∈ get_frame_list video p,
        0 ≤ e.1 ∧ e.1 ≤ video.total_frames - 1) ∧
    (get_frame_list video p).Pairwise (fun a b => a.1 ≤ b.1) := by
  have hstep : 0 < video.fps / p.clip_fps := div_pos hfps hclip
  have htf' : (0 : ℚ) ≤ (video.total_frames : ℚ) - 1 := by
    have : (1 : ℚ) ≤ (video.total_frames : ℚ) := by exact_mod_cast htf
    linarith
  have hcast : ((video.total_frames : ℚ) - 1)
      = ((video.total_frames - 1 : ℤ) : ℚ) := by push_cast; ring
  constructor
  · intro e he
    rw [get_frame_list, List.mem_map] at he
    obtain ⟨x, _, rfl⟩ := he
    constructor
    · exact truncQ_nonneg (le_min (le_max_right x 0) htf')
    · have h1 : min (max x 0) ((video.total_frames : ℚ) - 1)
          ≤ ((video.total_frames - 1 : ℤ) : ℚ) := by
        rw [← hcast]; exact min_le_right _ _
      have := truncQ_mono h1
      rwa [truncQ_intCast] at this
  · rw [get_frame_list, arange, if_neg (ne_of_gt hstep), List.map_map]
    refine (List.pairwise_lt_range _).map _ ?_
    intro i j hij
    have hx : p.start_time * video.fps + (i : ℚ) * (video.fps / p.clip_fps)
        ≤ p.start_time * video.fps + (j : ℚ) * (video.fps / p.clip_fps) := by
      have : (i : ℚ) ≤ (j : ℚ) := by exact_mod_cast hij.le
      have := mul_le_mul_of_nonneg_right this hstep.le
      linarith
    exact truncQ_mono (min_le_min (max_le_max hx le_rfl) le_rfl)

/-- C3 witness: the theorem applied to a 30 fps, 300-frame video sampled at
2 fps over `[0, 1)` (frame indices 0 and 15). -/
theorem frame_list_bounds_and_monotone_witness :
    ((0 : ℚ) < (30 : ℚ) ∧ (0 : ℚ) < (2 : ℚ) ∧ (0 : ℚ) < (1 : ℚ) ∧
      (1 : ℤ) ≤ (300 : ℤ)) ∧
    ((∀ e ∈ get_frame_list ⟨300, 10, 30⟩ ⟨0, 1, 1 / 2, 2⟩,
        0 ≤ e.1 ∧ e.1 ≤ (300 : ℤ) - 1) ∧
      (get_frame_list ⟨300, 10, 30⟩ ⟨0, 1, 1 / 2, 2⟩).Pairwise
        (fun a b => a.1 ≤ b.1)) :=
  ⟨⟨by norm_num, by norm_num, by norm_num, by norm_num⟩,
    frame_list_bounds_and_monotone ⟨300, 10, 30⟩ ⟨0, 1, 1 / 2, 2⟩
      (by norm_num) (by norm_num) (by norm_num) (by norm_num)⟩

/-- C4.  For every sampling configuration with `clip_fps ≤ video.fps` (and
positive rates, `end_time > start_time`), the number of samples emitted by
`_get_frame_list` equals `⌊(end_time - start_time) * clip_fps⌋` up to a
deviation of at most 1. -/
theorem frame_list_count (video : VideoMeta) (p : Params)
    (hfps : 0 < video.fps) (hclip : 0 < p.clip_fps)
    (hle : p.clip_fps ≤ video.fps) (hrange : p.start_time < p.end_time) :
    |((get_frame_list video p).length : ℤ)
      - ⌊(p.end_time - p.start_time) * p.clip_fps⌋| ≤ 1 := by
  have hstep : 0 < video.fps / p.clip_fps := div_pos hfps hclip
  have hdiv : (p.end_time * video.fps - p.start_time * video.fps)
      / (video.fps / p.clip_fps)
      = (p.end_time - p.start_time) * p.clip_fps := by
    rw [div_div_eq_mul_div, div_eq_iff (ne_of_gt hfps)]
    ring
  have hlen : (get_frame_list video p).length
      = (⌈(p.end_time - p.start_time) * p.clip_fps⌉).toNat := by
    rw [get_frame_list, List.length_map, arange, if_neg (ne_of_gt hstep),
      List.length_map, List.length_range, hdiv]
  have hxpos : 0 < (p.end_time - p.start_time) * p.clip_fps :=
    mul_pos (sub_pos.mpr hrange) hclip
  have hceil : 0 < ⌈(p.end_time - p.start_time) * p.clip_fps⌉ :=
    Int.ceil_pos.mpr hxpos
  rw [hlen, Int.toNat_of_nonneg hceil.le]
  have h1 := Int.floor_le_ceil ((p.end_time - p.start_time) * p.clip_fps)
  have h2 := Int.ceil_le_floor_add_one ((p.end_time - p.start_time) * p.clip_fps)
  rw [abs_le]
  omega

/-- C4 witness: the theorem applied to a 30 fps video sampled at 2 fps over
`[0, 1)`: 2 samples against `⌊1 * 2⌋ = 2`. -/
theorem frame_list_count_witness :
    ((0 : ℚ) < (30 : ℚ) ∧ (0 : ℚ) < (2 : ℚ) ∧ (2 : ℚ) ≤ (30 : ℚ) ∧
      (0 : ℚ) < (1 : ℚ)) ∧
    |((get_frame_list ⟨300, 10, 30⟩ ⟨0, 1, 1 / 2, 2⟩).length : ℤ)
      - ⌊((1 : ℚ) - 0) * 2⌋| ≤ 1 :=
  ⟨⟨by norm_num, by norm_num, by norm_num, by norm_num⟩,
    frame_list_count ⟨300, 10, 30⟩ ⟨0, 1, 1 / 2, 2⟩
      (by norm_num) (by norm_num) (by norm_num) (by norm_num)⟩

/-! ### Claims C6, C7 : track interpolation and the merge step -/

/-- One GPS fix as flattened by `_load_gpx` (mov2seqimg.py lines 70-85):
elapsed time relative to the first fix, latitude, longitude, elevation. -/
structure TrackFix where
  elapsed : ℚ
  lat : ℚ
  lon : ℚ
  ele : ℚ
deriving DecidableEq, Repr

/-- Strict monotonicity of a list of times. -/
def strictlyIncreasing : List ℚ → Bool
  | a :: b :: rest => decide (a < b) && strictlyIncreasing (b :: rest)
  | _ => true

/-- Quadratic Lagrange polynomial through three `(time, value)` points,
evaluated at `t`. -/
def lagrange3 (p0 p1 p2 : ℚ × ℚ) (t : ℚ) : ℚ :=
  p0.2 * ((t - p1.1) * (t - p2.1)) / ((p0.1 - p1.1) * (p0.1 - p2.1)) +
  p1.2 * ((t - p0.1) * (t - p2.1)) / ((p1.1 - p0.1) * (p1.1 - p2.1)) +
  p2.2 * ((t - p0.1) * (t - p1.1)) / ((p2.1 - p0.1) * (p2.1 - p1.1))

/-- Modelled from the spec: the evaluation of the per-axis quadratic
(piecewise, degree-2) interpolating spline built by
`scipy.interpolate.interp1d(..., kind='quadratic',
fill_value='extrapolate')`, whose internals are not part of this
repository's source.  Each piece is the degree-2 polynomial through a
sliding window of three consecutive knots, extended by extrapolation
outside the knot span. -/
def quadEval : List (ℚ × ℚ) → ℚ → ℚ
  | [p0, p1, p2], t => lagrange3 p0 p1 p2 t
  | p0 :: p1 :: p2 :: p3 :: rest, t =>
    if t ≤ p1.1 then lagrange3 p0 p1 p2 t
    else quadEval (p1 :: p2 :: p3 :: rest) t
  | _, _ => 0

/-- The per-axis knot lists of the three interpolants built by
`_merge_gnss2frame_list` (mov2seqimg.py lines 193-195). -/
structure Interpolant where
  latPts : List (ℚ × ℚ)
  lonPts : List (ℚ × ℚ)
  elePts : List (ℚ × ℚ)
deriving DecidableEq, Repr

/-- Modelled from the spec: construction of the track interpolant
(`scipy.interpolate.interp1d`, invoked at mov2seqimg.py lines 193-195, its
internals not in this repository's source).  Per the spec it fails with an
`InterpolationError` when fewer than 3 fixes are supplied or when
elapsed_time is not strictly increasing, and otherwise yields one quadratic
interpolant per axis over the `(elapsed_time, value)` pairs. -/
def buildInterpolant (fixes : List TrackFix) : Except String Interpolant :=
  if fixes.length < 3 then
    .error "InterpolationError: fewer than 3 fixes"
  else if strictlyIncreasing (fixes.map TrackFix.elapsed) then
    .ok ⟨fixes.map (fun f => (f.elapsed, f.lat)),
         fixes.map (fun f => (f.elapsed, f.lon)),
         fixes.map (fun f => (f.elapsed, f.ele))⟩
  else
    .error "InterpolationError: elapsed_time not strictly increasing"

/-- `self.gps_data["rel_time"].iloc[-1].total_seconds()`: the last fix's
elapsed time (mov2seqimg.py line 185). -/
def lastElapsed (fixes : List TrackFix) : ℚ :=
  ((fixes.getLast?).map TrackFix.elapsed).getD 0

/-- Source `_merge_gnss2frame_list` (mov2seqimg.py lines 177-204): first the
duration-mismatch check (a warning is printed when
`|total_duration - last rel_time| > 1`, with no other effect), then the
three per-axis interpolants are built (spec-modelled, see
`buildInterpolant`), then every frame record is extended with the
interpolated coordinates at its timestamp.  The returned pair is
(warning emitted?, merge outcome). -/
def merge_gnss2frame_list (total_duration : ℚ) (fixes : List TrackFix)
    (frame_list : List (ℤ × ℚ)) :
    Bool × Except String (List MergedRecord) :=
  let warn := decide (1 < |total_duration - lastElapsed fixes|)
  match buildInterpolant fixes with
  | .error e => (warn, .error e)
  | .ok interp =>
    (warn, .ok (frame_list.map (fun e =>
      ⟨e.1, e.2, quadEval interp.latPts e.2, quadEval interp.lonPts e.2,
        quadEval interp.elePts e.2⟩)))

/-- C6.  Building the track interpolant fails (with an
`InterpolationError`) exactly when fewer than 3 fixes are supplied or when
the fixes' elapsed times are not strictly increasing, and in the failure
cases the merge step produces no merged records. -/
theorem interpolation_failure_iff (dur : ℚ) (fixes : List TrackFix)
    (frames : List (ℤ × ℚ)) :
    (∃ msg, (merge_gnss2frame_list dur fixes frames).2 = .error msg) ↔
    (fixes.length < 3 ∨
      strictlyIncreasing (fixes.map TrackFix.elapsed) = false) := by
  by_cases h3 : fixes.length < 3
  · simp [merge_gnss2frame_list, buildInterpolant, h3]
  · by_cases hmono : strictlyIncreasing (fixes.map TrackFix.elapsed)
    · simp [merge_gnss2frame_list, buildInterpolant, h3, hmono]
    · have hfalse : strictlyIncreasing (fixes.map TrackFix.elapsed) = false := by
        simpa using hmono
      simp [merge_gnss2frame_list, buildInterpolant, h3, hfalse]

/-- C7.  Whenever `|total_duration - last elapsed_time| > 1`, the merge step
emits the synchronization warning but raises no error on account of it:
its outcome is identical to the outcome for a matching duration (which
emits no warning), and whenever the interpolant builds, the full requested
sample set is produced (one merged record per frame record). -/
theorem duration_mismatch_warning (dur : ℚ) (fixes : List TrackFix)
    (frames : List (ℤ × ℚ))
    (h : 1 < |dur - lastElapsed fixes|) :
    (merge_gnss2frame_list dur fixes frames).1 = true ∧
    (merge_gnss2frame_list dur fixes frames).2 =
      (merge_gnss2frame_list (lastElapsed fixes) fixes frames).2 ∧
    (merge_gnss2frame_list (lastElapsed fixes) fixes frames).1 = false ∧
    (∀ interp, buildInterpolant fixes = .ok interp →
      ∃ l, (merge_gnss2frame_list dur fixes frames).2 = .ok l ∧
        l.length = frames.length) := by
  have hwarnfalse : ¬ (1 : ℚ) < |lastElapsed fixes - lastElapsed fixes| := by
    rw [sub_self, abs_zero]; norm_num
  refine ⟨?_, ?_, ?_, ?_⟩
  · cases hb : buildInterpolant fixes <;>
      simp [merge_gnss2frame_list, hb, h]
  · cases hb : buildInterpolant fixes <;>
      simp [merge_gnss2frame_list, hb]
  · cases hb : buildInterpolant fixes <;>
      simp [merge_gnss2frame_list, hb, hwarnfalse]
  · intro interp hb
    refine ⟨frames.map (fun e =>
        ⟨e.1, e.2, quadEval interp.latPts e.2, quadEval interp.lonPts e.2,
          quadEval interp.elePts e.2⟩), ?_, ?_⟩
    · simp [merge_gnss2frame_list, hb]
    · simp

/-- C7 witness: the theorem applied to a 3-fix track whose last elapsed
time is 10 s against a video duration of 11.5 s. -/
theorem duration_mismatch_warning_witness :
    ((1 : ℚ) <
      |(23 / 2 : ℚ) - lastElapsed [⟨0, 1, 2, 3⟩, ⟨5, 1, 2, 3⟩, ⟨10, 1, 2, 3⟩]|) ∧
    ((merge_gnss2frame_list (23 / 2)
        [⟨0, 1, 2, 3⟩, ⟨5, 1, 2, 3⟩, ⟨10, 1, 2, 3⟩] [(0, 0)]).1 = true ∧
      (merge_gnss2frame_list (23 / 2)
        [⟨0, 1, 2, 3⟩, ⟨5, 1, 2, 3⟩, ⟨10, 1, 2, 3⟩] [(0, 0)]).2 =
        (merge_gnss2frame_list
          (lastElapsed [⟨0, 1, 2, 3⟩, ⟨5, 1, 2, 3⟩, ⟨10, 1, 2, 3⟩])
          [⟨0, 1, 2, 3⟩, ⟨5, 1, 2, 3⟩, ⟨10, 1, 2, 3⟩] [(0, 0)]).2 ∧
      (merge_gnss2frame_list
          (lastElapsed [⟨0, 1, 2, 3⟩, ⟨5, 1, 2, 3⟩, ⟨10, 1, 2, 3⟩])
          [⟨0, 1, 2, 3⟩, ⟨5, 1, 2, 3⟩, ⟨10, 1, 2, 3⟩] [(0, 0)]).1 = false ∧
      (∀ interp,
        buildInterpolant [⟨0, 1, 2, 3⟩, ⟨5, 1, 2, 3⟩, ⟨10, 1, 2, 3⟩] =
          .ok interp →
        ∃ l, (merge_gnss2frame_list (23 / 2)
            [⟨0, 1, 2, 3⟩, ⟨5, 1, 2, 3⟩, ⟨10, 1, 2, 3⟩] [(0, 0)]).2 = .ok l ∧
          l.length = [((0 : ℤ), (0 : ℚ))].length)) :=
  have habs :
      (1 : ℚ) <
        |(23 / 2 : ℚ) - lastElapsed [⟨0, 1, 2, 3⟩, ⟨5, 1, 2, 3⟩, ⟨10, 1, 2, 3⟩]| := by
    norm_num [lastElapsed]
    rw [abs_of_nonneg] <;> norm_num
  ⟨habs,
    duration_mismatch_warning (23 / 2)
      [⟨0, 1, 2, 3⟩, ⟨5, 1, 2, 3⟩, ⟨10, 1, 2, 3⟩] [(0, 0)] habs⟩

end Mov2SeqImg
